import Mathlib

/-!
# Verification of `vcall` (`src/vcall/__main__.py`)

A shallow embedding of the `vcall` tool: a recursive version-control command
runner that walks directory trees, dispatches one backend per directory by a
signature marker, runs external programs with a retry policy, and filters
their output through per-backend noise regexes.

External collaborators (the OS process facility `optbuild`, `configparser`,
`os.walk`, `shlex.split`, `tqdm`) are modelled as explicit oracles or as pure
functions whose behaviour is documented at the definition site.  Effectful
Python code is embedded in an explicit reader (environment) + state + exception
style: `M α = Env → PState → Except PyError α × PState`.
-/

set_option autoImplicit false

namespace VCall

/-- Python exception kinds that can propagate through the embedded code.
`returncode` is optbuild's `ReturncodeError` (external program exited with the
given nonzero status), `osError` is `OSError` (process could not be started),
`typeError` arises from unpacking `None` into a tuple, `notImplemented` is
`NotImplementedError`, `parsingError` is configparser's `ParsingError` raised
by `read()` on an unparsable file, and `noSection` / `noOption` are
configparser's `NoSectionError` / `NoOptionError`. -/
inductive PyError where
  | returncode (code : Int)
  | osError
  | typeError
  | notImplemented
  | parsingError
  | noSection
  | noOption
  | indexError
deriving DecidableEq, Repr

/-- A positional argument of an external invocation.  `str` is a plain string;
`cwd` is optbuild's `Cwd` marker object (a string subclass holding the working
directory for the child process, as used in `run_cvs`). -/
inductive Arg where
  | str (s : String)
  | cwd (dir : String)
deriving DecidableEq, Repr

/-- The string value of an argument, as used by `"%s.%s" % (prog.prog, subcommand)`
in `get_config_args`.  optbuild's `Cwd` is a `str` subclass, so it formats as
the directory itself. -/
def Arg.format : Arg → String
  | .str s => s
  | .cwd d => d

/-- One call into the external process facility: the program name, the optbuild
entry point used (`"getoutput"`, `"getoutput_error"`, or `"call"` for a plain
uncaptured `prog(...)` call), and the positional/keyword arguments. -/
structure Invocation where
  prog : String
  mode : String
  args : List Arg
  kwargs : List (String × String)
deriving DecidableEq, Repr

/-- What the external process facility returns for one invocation:
a successful run with captured standard output and standard error, a nonzero
exit status (optbuild raises `ReturncodeError`), or a launch failure
(`OSError`: program missing / cannot execute). -/
inductive ProcResult where
  | ok (stdout stderr : String)
  | exit (code : Int)
  | launchFailure

/-- The value produced by an optbuild entry point: `unit` for a plain call
(output goes to the terminal uncaptured), `outOnly` for `getoutput`,
`outErr` for `getoutput_error`. -/
inductive Capture where
  | unit
  | outOnly (stdout : String)
  | outErr (stdout stderr : String)
deriving DecidableEq, Repr

/-- The state of a directory's `.vcallrc` file as seen by
`SafeConfigParser.read`: missing (`read` ignores it), unreadable (`read` also
ignores files it cannot open), syntactically malformed (`read` raises
`ParsingError`), or parsed into sections of key/value options. -/
inductive RcFile where
  | absent
  | unreadable
  | malformed
  | parsed (sections : List (String × List (String × String)))

/-- One entry of the `PROGRESSERS` list (e.g. `tqdm_gui`): its constructor
either raises `RuntimeError` at start or succeeds.  Modelled from the spec:
the progress sink is purely cosmetic, so a started progresser yields the
underlying items unchanged. -/
structure Progresser where
  startFails : Bool
deriving DecidableEq, Repr

/-- A directory tree: the directory's own name, its immediate subdirectories
and its immediate plain files. -/
inductive DirTree where
  | mk (dirname : String) (subdirs : List DirTree) (filenames : List String)

def DirTree.dirname : DirTree → String
  | .mk n _ _ => n

def DirTree.subdirs : DirTree → List DirTree
  | .mk _ s _ => s

def DirTree.filenames : DirTree → List String
  | .mk _ _ f => f

/-- One triple yielded by `os.walk`: the directory path, the names of its
immediate subdirectories and the names of its immediate files. -/
structure WalkEntry where
  path : String
  childDirnames : List String
  childFilenames : List String
deriving DecidableEq, Repr

mutual
/-- The `os.walk(top)`, top-down: yields the entry for a directory before the
entries of its subdirectories, children in list order, joining paths with the
path separator.  (Models the external `os.walk`.) -/
def os_walk_from : String → DirTree → List WalkEntry
  | path, .mk _ subs files =>
    ⟨path, subs.map DirTree.dirname, files⟩ :: os_walk_children path subs

def os_walk_children : String → List DirTree → List WalkEntry
  | _, [] => []
  | path, t :: ts => os_walk_from (path ++ "/" ++ t.dirname) t ++ os_walk_children path ts
end

/-- The ambient world the program runs in: the external process oracle (its
answer may depend on the invocations already performed, so a retry can succeed
where the first attempt failed), the `.vcallrc` file of each directory, the
directory tree rooted at each path, the terminal status of the standard
streams, and the global `PROGRESSERS` list (`[tqdm_gui]` when `DISPLAY` is
set, `None` otherwise). -/
structure Env where
  proc : List Invocation → ProcResult
  rc : String → RcFile
  fs : String → DirTree
  stdinIsTty : Bool
  stdoutIsTty : Bool
  progressers : Option (List Progresser)

/-- Observable program state: the chronological list of external invocations
performed, the lines/chunks printed to standard output and standard error, and
the log of backend dispatches `(directory, runner name)` made by the tree
walker (one entry per `runner(command, branch_dirname)` call). -/
structure PState where
  history : List Invocation
  stdout : List String
  stderr : List String
  dispatches : List (String × String)
deriving DecidableEq, Repr

/-- Effectful computations: read the environment, thread the state, and
possibly raise a Python exception. -/
abbrev M (α : Type) := Env → PState → Except PyError α × PState

/-- Python `str.startswith`: prefix test on the character sequence. -/
def py_startswith (s pre : String) : Bool :=
  pre.data.isPrefixOf s.data

/-- Python `str.endswith`: suffix test on the character sequence. -/
def py_endswith (s suf : String) : Bool :=
  suf.data.isSuffixOf s.data

/-- Split a character sequence at every separator character (the pieces
between separators, like Python `str.split` with an explicit separator). -/
def split_chars (p : Char → Bool) : List Char → List (List Char)
  | [] => [[]]
  | c :: cs =>
    let r := split_chars p cs
    if p c then [] :: r
    else (c :: r.headD []) :: r.tail

/-- Split a string at every character satisfying `p`. -/
def py_split (s : String) (p : Char → Bool) : List String :=
  (split_chars p s.data).map (fun l => ⟨l⟩)

/-- Python `str.splitlines` for strings whose only line-break character is
`"\n"`: split on newlines, with a trailing newline producing no trailing empty
line (so `""` has no lines at all). -/
def py_splitlines (s : String) : List String :=
  let parts := py_split s (fun c => c = '\n')
  if parts.getLast? = some "" then parts.dropLast else parts

/-- Python `shlex.split` restricted to values without quote or escape
characters: whitespace-separated tokens. -/
def shlex_split (s : String) : List String :=
  (py_split s (fun c => c = ' ' || c = '\t')).filter (fun t => t ≠ "")

/-- The command-prefix resolution performed at the top of `vcall`
(lines 308-313 of `__main__.py`): `startswith("st")` maps to `"status"`,
then `startswith("upg")` to `"upgrade"`, then `startswith("up")` to
`"update"`; anything else is passed through unchanged. -/
def resolve_command (command : String) : String :=
  if py_startswith command "st" then "status"
  else if py_startswith command "upg" then "upgrade"
  else if py_startswith command "up" then "update"
  else command

/-- The `re_cvs_new_directory_ignored`, i.e. `re.match` of the pattern
`^cvs update: New directory` + backquote + `.*' -- ignored$` against a single
line (lines never contain a newline, so `.*` is an arbitrary infix). -/
def re_cvs_new_directory_ignored (line : String) : Bool :=
  py_startswith line "cvs update: New directory `" &&
  py_endswith line "' -- ignored" &&
  decide ("cvs update: New directory `".length + "' -- ignored".length ≤ line.length)

/-- The `re_svn_status_against`: `re.match` of `^Status against revision:`. -/
def re_svn_status_against (line : String) : Bool :=
  py_startswith line "Status against revision:"

/-- The `re_hg_quiet_summary`: `re.match` of
`^(?!(?:commit|update|remote): )|(?:commit: \(clean\)|update: \(current\)|remote: \(synced\))$`.
The first alternative matches (emptily) exactly when the line does not start
with one of the three field markers; the second matches exactly the three
literal steady-state lines. -/
def re_hg_quiet_summary (line : String) : Bool :=
  (!(py_startswith line "commit: " || py_startswith line "update: " ||
     py_startswith line "remote: ")) ||
  (line == "commit: (clean)" || line == "update: (current)" ||
   line == "remote: (synced)")

/-- The `re_hg_0_updates`: `re.match` of
`^0 files updated, 0 files merged, 0 files removed, 0 files unresolved$`. -/
def re_hg_0_updates (line : String) : Bool :=
  line == "0 files updated, 0 files merged, 0 files removed, 0 files unresolved"

/-- The `re_git_fetching_origin`: `re.match` of `^Fetching origin$`. -/
def re_git_fetching_origin (line : String) : Bool :=
  line == "Fetching origin"

/-- The `re_git`: `re.match` of the placeholder pattern
`XXXcanthappenneedsomethingbetterhereXXX`. -/
def re_git (line : String) : Bool :=
  py_startswith line "XXXcanthappenneedsomethingbetterhereXXX"

/-- The `output_lines`: `None` and the empty capture are falsy and give no lines;
otherwise decode and split into lines. -/
def output_lines : Option String → List String
  | some output => if output = "" then [] else py_splitlines output
  | none => []

/-- The loop body of `print_except`: `res` starts `False` and becomes `True`
at every line the noise regex does not match; those surviving lines are
printed (prefix and line joined by `print`'s separator).  Returns the final
`res` together with the printed lines in order. -/
def print_except_loop (pfx : String) (noise : String → Bool) :
    List String → Bool → Bool × List String
  | [], res => (res, [])
  | line :: rest, res =>
    if noise line then print_except_loop pfx noise rest res
    else
      let r := print_except_loop pfx noise rest true
      (r.1, (pfx ++ " " ++ line) :: r.2)

/-- The `print_except(output, regex, dirname=None)`: print every output line not
matching `regex` to the error stream, prefixed with `"dirname:"` when a
truthy `dirname` is given; return whether any line was printed, together with
the printed lines. -/
def print_except (output : Option String) (noise : String → Bool)
    (dirname : Option String) : Bool × List String :=
  let pfx := match dirname with
    | some d => if d = "" then "" else d ++ ":"
    | none => ""
  print_except_loop pfx noise (output_lines output) false

/-- The `parse_config`: `SafeConfigParser(dict(dirname=dirname))` plus
`config.read(Path(dirname) / RC_FILENAME)`.  `read` ignores missing and
unreadable files but raises `ParsingError` on files it cannot parse. -/
def parse_config (env : Env) (dirname : String) :
    Except PyError (List (String × List (String × String))) :=
  match env.rc dirname with
  | .absent => .ok []
  | .unreadable => .ok []
  | .malformed => .error .parsingError
  | .parsed sections => .ok sections

/-- The `config.get(section, option)` of a parser built with defaults
`dict(dirname=dirname)`: a missing section raises `NoSectionError`; a missing
option falls back to the defaults (which hold only `"dirname"`) and otherwise
raises `NoOptionError`.  (Interpolation is not modelled; the values exercised
here contain no `%`.) -/
def config_get (sections : List (String × List (String × String)))
    (dirname sectionName optionName : String) : Except PyError String :=
  match sections.lookup sectionName with
  | none => .error .noSection
  | some opts =>
    match opts.lookup optionName with
    | some v => .ok v
    | none => if optionName = "dirname" then .ok dirname else .error .noOption

/-- The `get_config_args(prog, subcommand, dirname)`: select the `"interactive"`
or `"noninteractive"` section by whether standard input is a terminal, look up
the option `"<prog>.<subcommand>"`, and return its shell-split value;
`NoSectionError` and `NoOptionError` yield `None` (no override).  Any other
configparser failure propagates. -/
def get_config_args (env : Env) (progName subcommand dirname : String) :
    Except PyError (Option (List String)) :=
  match parse_config env dirname with
  | .error e => .error e
  | .ok config =>
    let sectionName := if env.stdinIsTty then "interactive" else "noninteractive"
    let optionName := progName ++ "." ++ subcommand
    match config_get config dirname sectionName optionName with
    | .error .noSection => .ok none
    | .error .noOption => .ok none
    | .error e => .error e
    | .ok value => .ok (some (shlex_split value))

/-- One call into the external process facility via an optbuild entry point:
record the invocation, ask the oracle (which sees the history so far), and
either produce the capture appropriate for the entry point, raise
`ReturncodeError` on a nonzero exit status, or raise `OSError` on a launch
failure. -/
def invoke (progName mode : String) (args : List Arg)
    (kwargs : List (String × String)) : M Capture :=
  fun env s =>
    let inv : Invocation := ⟨progName, mode, args, kwargs⟩
    let s' := { s with history := s.history ++ [inv] }
    match env.proc s.history with
    | .ok out err =>
      (.ok (if mode = "getoutput_error" then .outErr out err
            else if mode = "getoutput" then .outOnly out
            else .unit), s')
    | .exit code => (.error (.returncode code), s')
    | .launchFailure => (.error .osError, s')

/-- The diagnostic printed by `try_prog` on a `ReturncodeError`
(`"Error detected from %s in %s; repeating"`; optbuild program objects format
as their program name). -/
def returncode_diag (progName dirname : String) : String :=
  "Error detected from " ++ progName ++ " in " ++ dirname ++ "; repeating"

/-- The diagnostic printed by `try_prog` on an `OSError`
(`"Error detected trying to run %s in %s"`). -/
def oserror_diag (progName dirname : String) : String :=
  "Error detected trying to run " ++ progName ++ " in " ++ dirname

/-- The `try_prog(prog, funcname, dirname, *args, **kwargs)`:
look up a `.vcallrc` override under the key `"<prog>.<args[0]>"`; if present,
the override replaces the positional arguments wholesale and drops all keyword
arguments.  Then run `getattr(prog, funcname)(*args, **kwargs)` and return its
capture.  On `ReturncodeError`: print a diagnostic and re-invoke the program
once with the same arguments as a plain uncaptured call — the handler then
falls off the end of the function, so `try_prog` returns `None`.  On `OSError`
from the first attempt: print a diagnostic and re-raise. -/
def try_prog (progName funcname dirname : String) (args : List Arg)
    (kwargs : List (String × String)) : M (Option Capture) :=
  fun env s =>
    match args with
    | [] => (.error .indexError, s)
    | arg0 :: _ =>
      match get_config_args env progName arg0.format dirname with
      | .error e => (.error e, s)
      | .ok configArgs =>
        let argsKw : List Arg × List (String × String) :=
          match configArgs with
          | some ca => (ca.map Arg.str, [])
          | none => (args, kwargs)
        match invoke progName funcname argsKw.1 argsKw.2 env s with
        | (.ok c, s1) => (.ok (some c), s1)
        | (.error (.returncode _), s1) =>
          let s2 := { s1 with
            stderr := s1.stderr ++ [returncode_diag progName dirname] }
          (match invoke progName "call" argsKw.1 argsKw.2 env s2 with
           | (.ok _, s3) => (.ok none, s3)
           | (.error e, s3) => (.error e, s3))
        | (.error .osError, s1) =>
          let s2 := { s1 with
            stderr := s1.stderr ++ [oserror_diag progName dirname] }
          (.error .osError, s2)
        | (.error e, s1) => (.error e, s1)

/-- The value of a `try_prog(..., "getoutput", ...)` call as seen by its
caller: the captured standard output, or `None` when `try_prog` returned
`None` after a successful retry. -/
def getoutput_result : Option Capture → Option String
  | some (.outOnly o) => some o
  | some (.outErr o _) => some o
  | some .unit => none
  | none => none

/-- Unpacking `output, error = try_prog(..., "getoutput_error", ...)`:
a pair unpacks; unpacking `None` raises `TypeError`. -/
def unpack_output_error : Option Capture → Except PyError (String × String)
  | some (.outErr o e) => .ok (o, e)
  | _ => .error .typeError

/-- The `make_args(command, subcommand, dirname)`. -/
def make_args (command : String) (subcommand : Option String)
    (dirname : String) : List String :=
  match subcommand with
  | some sub => [command, sub, dirname]
  | none => [command, dirname]

/-- The `run_cvs(command, dirname)`: `upgrade` returns immediately (`None`).
`status` becomes a dry-run `update` (`-n`), `update` gets subcommand `-dP`;
the default keyword flags start from `CVS_KWARGS_DEFAULT = dict(q=True)`.
The invocation captures both streams with a `Cwd(dirname)` marker and the
relative path `"."`.  Nonempty captured standard output is printed (to
standard output) and makes the result `True`; the error stream is filtered
through the new-directory-ignored regex. -/
def run_cvs (command dirname : String) : M (Option Bool) :=
  fun env s =>
    if command = "upgrade" then (.ok none, s)
    else
      let kwargs0 : List (String × String) := [("q", "True")]
      let ck : String × List (String × String) :=
        if command = "status" then ("update", kwargs0 ++ [("n", "True")])
        else (command, kwargs0)
      let subcommand := if ck.1 = "update" then some "-dP" else none
      let args := make_args ck.1 subcommand "."
      match try_prog "cvs" "getoutput_error" dirname
          (Arg.cwd dirname :: args.map Arg.str) ck.2 env s with
      | (.error e, s1) => (.error e, s1)
      | (.ok r, s1) =>
        match unpack_output_error r with
        | .error e => (.error e, s1)
        | .ok oe =>
          let res : Bool := !(oe.1 = "")
          let s2 := if oe.1 = "" then s1
                    else { s1 with stdout := s1.stdout ++ [oe.1] }
          let pe := print_except (some oe.2) re_cvs_new_directory_ignored none
          (.ok (some (pe.1 || res)), { s2 with stderr := s2.stderr ++ pe.2 })

/-- The `run_svn(command, dirname)`: `status` gets subcommand `-u`; the output of
a single-stream capture is filtered through the status-against regex. -/
def run_svn (command dirname : String) : M (Option Bool) :=
  fun env s =>
    let subcommand := if command = "status" then some "-u" else none
    let args := make_args command subcommand dirname
    match try_prog "svn" "getoutput" dirname (args.map Arg.str) [] env s with
    | (.error e, s1) => (.error e, s1)
    | (.ok output, s1) =>
      let pe := print_except (getoutput_result output) re_svn_status_against none
      (.ok (some pe.1), { s1 with stderr := s1.stderr ++ pe.2 })

/-- The shared tail of `run_hg` for the `status` and fall-through branches:
`try_prog(HG_PROG, "getoutput", dirname, *args, **kwargs)` followed by
`print_except(output, re_hg_quiet_summary, dirname)`. -/
def run_hg_summary_tail (args : List Arg) (dirname : String)
    (kwargs : List (String × String)) : M (Option Bool) :=
  fun env s =>
    match try_prog "hg" "getoutput" dirname args kwargs env s with
    | (.error e, s1) => (.error e, s1)
    | (.ok output, s1) =>
      let pe := print_except (getoutput_result output) re_hg_quiet_summary (some dirname)
      (.ok (some pe.1), { s1 with stderr := s1.stderr ++ pe.2 })

/-- The tail of `run_hg`'s `update` branch:
`output = try_prog(HG_PROG, "getoutput", dirname, "update", cwd=dirname)`,
`print_except(output, re_hg_0_updates, dirname)`, then a bare `return` —
the surviving lines are printed but the filtering result is discarded and the
branch returns `None`. -/
def run_hg_update_tail (dirname : String) : M (Option Bool) :=
  fun env s =>
    match try_prog "hg" "getoutput" dirname [Arg.str "update"]
        [("cwd", dirname)] env s with
    | (.error e, s1) => (.error e, s1)
    | (.ok output, s1) =>
      let pe := print_except (getoutput_result output) re_hg_0_updates (some dirname)
      (.ok none, { s1 with stderr := s1.stderr ++ pe.2 })

/-- The `run_hg(command, dirname)`: for `status`, probe
`HG_PROG("paths", "default", quiet=True, cwd=dirname)` directly (no retry: a
`ReturncodeError` with status 1 means no default remote and is tolerated,
any other status re-raises), appending `--remote` to `summary` only when the
probe succeeds; `upgrade` returns immediately (`None`); for `update`, run
`HG_PROG("pull", quiet=True, cwd=dirname)` directly (status 1 — nothing
incoming — is tolerated, other statuses re-raise), then the update tail; any
other command runs as a plain subcommand through the summary tail. -/
def run_hg (command dirname : String) : M (Option Bool) :=
  fun env s =>
    let kwargs : List (String × String) := [("cwd", dirname)]
    if command = "status" then
      match invoke "hg" "call" [Arg.str "paths", Arg.str "default"]
          ([("quiet", "True")] ++ kwargs) env s with
      | (.error (.returncode code), s1) =>
        if code = 1 then
          run_hg_summary_tail [Arg.str "summary"] dirname kwargs env s1
        else (.error (.returncode code), s1)
      | (.error e, s1) => (.error e, s1)
      | (.ok _, s1) =>
        run_hg_summary_tail [Arg.str "summary", Arg.str "--remote"] dirname kwargs env s1
    else if command = "upgrade" then (.ok none, s)
    else if command = "update" then
      match invoke "hg" "call" [Arg.str "pull"]
          ([("quiet", "True")] ++ kwargs) env s with
      | (.error (.returncode code), s1) =>
        if code = 1 then run_hg_update_tail dirname env s1
        else (.error (.returncode code), s1)
      | (.error e, s1) => (.error e, s1)
      | (.ok _, s1) => run_hg_update_tail dirname env s1
    else
      run_hg_summary_tail [Arg.str command] dirname kwargs env s

/-- The `run_git(command, dirname)`: only `status` is implemented — a dual-stream
`remote update` (whose error stream is filtered through the fetching-origin
regex, result discarded) followed by a single-stream `status --porcelain`
filtered through the placeholder regex; any other command raises
`NotImplementedError`. -/
def run_git (command dirname : String) : M (Option Bool) :=
  fun env s =>
    let args_dirname := [Arg.str "-C", Arg.str dirname]
    if command = "status" then
      match try_prog "git" "getoutput_error" dirname
          (args_dirname ++ [Arg.str "remote", Arg.str "update"]) [] env s with
      | (.error e, s1) => (.error e, s1)
      | (.ok r, s1) =>
        match unpack_output_error r with
        | .error e => (.error e, s1)
        | .ok oe =>
          let pe := print_except (some oe.2) re_git_fetching_origin (some dirname)
          let s2 := { s1 with stderr := s1.stderr ++ pe.2 }
          let args := args_dirname ++ [Arg.str "status", Arg.str "--porcelain"]
          match try_prog "git" "getoutput" dirname args [] env s2 with
          | (.error e, s3) => (.error e, s3)
          | (.ok output, s3) =>
            let pe2 := print_except (getoutput_result output) re_git (some dirname)
            (.ok (some pe2.1), { s3 with stderr := s3.stderr ++ pe2.2 })
    else (.error .notImplemented, s)

/-- One registry entry: the signature marker, the runner's `__name__`, and the
runner itself. -/
structure Runner where
  sig : String
  name : String
  run : String → String → M (Option Bool)

/-- The `RUNNERS` registry, in its fixed insertion order. -/
def RUNNERS : List Runner :=
  [⟨".git", "run_git", run_git⟩,
   ⟨".hg", "run_hg", run_hg⟩,
   ⟨".svn", "run_svn", run_svn⟩,
   ⟨"CVS", "run_cvs", run_cvs⟩]

/-- The module-level `VERBOSE = True` flag. -/
def VERBOSE : Bool := true

/-- The state just before the walker calls `runner(command, branch_dirname)`:
the `VERBOSE` progress notice has been printed and the dispatch is logged. -/
def dispatch_state (s : PState) (e : WalkEntry) (r : Runner)
    (command : String) : PState :=
  { s with
    stderr := s.stderr ++
      (if VERBOSE then ["* " ++ r.name ++ " " ++ command ++ ": " ++ e.path] else []),
    dispatches := s.dispatches ++ [(e.path, r.name)] }

/-- The body of `walk_dirname`'s loop over the walk entries: at each visited
directory, the registry is scanned in order and the first runner whose
signature is among the immediate child directory names fires (`break` skips
the rest); its truthy result yields the directory; a `ReturncodeError`
escaping the runner is swallowed (`pass`) and the walk continues; any other
exception propagates out of the generator. -/
def walk_entries (command : String) : List WalkEntry → M (List String)
  | [] => fun _ s => (.ok [], s)
  | e :: rest => fun env s =>
    match RUNNERS.find? (fun r => e.childDirnames.contains r.sig) with
    | none => walk_entries command rest env s
    | some r =>
      let s1 := dispatch_state s e r command
      match r.run command e.path env s1 with
      | (.ok v, s2) =>
        (match walk_entries command rest env s2 with
         | (.ok acc, s3) => (.ok ((if v = some true then [e.path] else []) ++ acc), s3)
         | (.error e', s3) => (.error e', s3))
      | (.error (.returncode _), s2) => walk_entries command rest env s2
      | (.error e', s2) => (.error e', s2)

/-- The `progress(iterable, ...)` when the `PROGRESSERS` list is truthy: try each
progresser in turn, skipping those whose constructor raises `RuntimeError`;
if every progresser fails the loop is exhausted and the function implicitly
returns `None`. -/
def progress_loop {α : Type} : List Progresser → List α → Option (List α)
  | [], _ => none
  | p :: rest, iterable =>
    if p.startFails then progress_loop rest iterable else some iterable

/-- The `progress(iterable, *args, **kwargs)`: a falsy `PROGRESSERS` (either
`None` or an empty list) returns the iterable unchanged; otherwise the
progressers are tried in turn. -/
def progress {α : Type} (progressers : Option (List Progresser))
    (iterable : List α) : Option (List α) :=
  match progressers with
  | none => some iterable
  | some [] => some iterable
  | some ps => progress_loop ps iterable

/-- The `walk_dirname(command, dirname)`: walk the tree top-down; when standard
output is a terminal the walker is wrapped in `progress` — iterating the
`None` that `progress` returns when every progresser fails raises
`TypeError`. -/
def walk_dirname (command dirname : String) : M (List String) :=
  fun env s =>
    let entries := os_walk_from dirname (env.fs dirname)
    match (if env.stdoutIsTty then progress env.progressers entries
           else some entries) with
    | some walker => walk_entries command walker env s
    | none => (.error .typeError, s)

/-- The loop of `_vcall` over the supplied root directories, extending the
accumulated list with each root's reportable directories. -/
def vcall_roots (command : String) : List String → M (List String)
  | [] => fun _ s => (.ok [], s)
  | d :: ds => fun env s =>
    match walk_dirname command d env s with
    | (.error e, s1) => (.error e, s1)
    | (.ok dirs, s1) =>
      match vcall_roots command ds env s1 with
      | (.ok acc, s2) => (.ok (dirs ++ acc), s2)
      | (.error e, s2) => (.error e, s2)

/-- The `_vcall(command, dirnames)`: wrap the roots in `progress` (iterating a
`None` result raises `TypeError`), walk each root, and if any directory was
reportable print a suggested follow-up command line (`sys.argv[0]` modelled as
`"vcall"`). -/
def vcall_main (command : String) (dirnames : List String) : M (List String) :=
  fun env s =>
    match progress env.progressers dirnames with
    | none => (.error .typeError, s)
    | some walker =>
      match vcall_roots command walker env s with
      | (.error e, s1) => (.error e, s1)
      | (.ok affected, s1) =>
        let s2 := if affected = [] then s1
          else { s1 with stdout := s1.stdout ++
            ["", String.intercalate " " ("vcall" :: "update" :: affected)] }
        (.ok affected, s2)

/-- The `vcall(command="status", dirnames=[])`: default the roots to `["."]`,
resolve the command prefix, and run. -/
def vcall (command : String) (dirnames : List String) : M (List String) :=
  let roots := if dirnames = [] then ["."] else dirnames
  vcall_main (resolve_command command) roots

/-- The dispatch decision of the walker at one visited directory: the first
registry entry whose signature is among the immediate child directory names,
paired with the directory path. -/
def dispatch_of (e : WalkEntry) : Option (String × String) :=
  (RUNNERS.find? (fun r => e.childDirnames.contains r.sig)).map
    (fun r => (e.path, r.name))

/-- Whether a runner's outcome makes the directory reportable, i.e. whether
`if runner(command, branch_dirname):` is taken: only a non-exceptional,
truthy (`True`) result qualifies. -/
def reportable_result : Except PyError (Option Bool) → Bool
  | .ok (some true) => true
  | _ => false

/-- The empty starting state. -/
def st0 : PState := ⟨[], [], [], []⟩

/-- The `hg pull` invocation of `run_hg`'s `update` branch. -/
def hg_pull_inv (d : String) : Invocation :=
  ⟨"hg", "call", [Arg.str "pull"], [("quiet", "True"), ("cwd", d)]⟩

/-- The `hg update` invocation of `run_hg`'s `update` branch. -/
def hg_update_inv (d : String) : Invocation :=
  ⟨"hg", "getoutput", [Arg.str "update"], [("cwd", d)]⟩

/-- The dual-stream `git remote update` invocation of `run_git`'s `status`. -/
def git_remote_update_inv (d : String) : Invocation :=
  ⟨"git", "getoutput_error",
   [Arg.str "-C", Arg.str d, Arg.str "remote", Arg.str "update"], []⟩

/-- The dual-stream CVS invocation of `run_cvs`'s `status` (a dry-run
`update -dP` of `"."` with keyword flags `q` and `n`, in a `Cwd` context). -/
def cvs_status_inv (d : String) : Invocation :=
  ⟨"cvs", "getoutput_error",
   [Arg.cwd d, Arg.str "update", Arg.str "-dP", Arg.str "."],
   [("q", "True"), ("n", "True")]⟩

/-- The single-stream `git status --porcelain` invocation of `run_git`'s
`status`. -/
def git_status_porcelain_inv (d : String) : Invocation :=
  ⟨"git", "getoutput",
   [Arg.str "-C", Arg.str d, Arg.str "status", Arg.str "--porcelain"], []⟩

/-- The single-stream `svn status -u` invocation of `run_svn`'s `status`. -/
def svn_status_inv (d : String) : Invocation :=
  ⟨"svn", "getoutput", [Arg.str "status", Arg.str "-u", Arg.str d], []⟩

/-- A quiet environment: every process succeeds with empty output, no
`.vcallrc` anywhere, a bare current directory, nothing is a terminal, no
progressers configured. -/
def env_ok : Env :=
  { proc := fun _ => .ok "" "", rc := fun _ => .absent,
    fs := fun _ => .mk "." [] [], stdinIsTty := false, stdoutIsTty := false,
    progressers := none }

/-- C2 scenario: interactive session in a directory whose `.vcallrc` holds
`git.status = status --short` in the `[interactive]` section; every process
succeeds with empty output. -/
def env_c2 : Env :=
  { proc := fun _ => .ok "" "",
    rc := fun _ => .parsed [("interactive", [("git.status", "status --short")])],
    fs := fun _ => .mk "." [] [], stdinIsTty := true, stdoutIsTty := false,
    progressers := none }

/-- C3 scenario: `hg pull` (the first invocation) exits with status 1
(nothing incoming); the subsequent `hg update` reports one updated file, a
line the all-zero filter does not drop. -/
def env_c3 : Env :=
  { proc := fun h =>
      if h.length = 0 then .exit 1
      else .ok "1 files updated, 0 files merged, 0 files removed, 0 files unresolved\n" "",
    rc := fun _ => .absent, fs := fun _ => .mk "." [] [],
    stdinIsTty := false, stdoutIsTty := false, progressers := none }

/-- C3 witness scenario: a Subversion status whose captured output is one
locally modified file, a line the status-against filter does not drop. -/
def env_c3w : Env :=
  { proc := fun _ => .ok "M foo\n" "", rc := fun _ => .absent,
    fs := fun _ => .mk "." [] [], stdinIsTty := false, stdoutIsTty := false,
    progressers := none }

/-- C5 amended-claim scenario: the first attempt of an invocation exits with
status 2 and the retry exits with status 3. -/
def env_c5 : Env :=
  { proc := fun h => if h.length = 0 then .exit 2 else .exit 3,
    rc := fun _ => .absent, fs := fun _ => .mk "." [] [],
    stdinIsTty := false, stdoutIsTty := false, progressers := none }

/-- C6 scenario: no external program can be started at all; `top` holds a
Subversion working copy. -/
def env_c6 : Env :=
  { proc := fun _ => .launchFailure, rc := fun _ => .absent,
    fs := fun _ => .mk "top" [.mk ".svn" [] []] [],
    stdinIsTty := false, stdoutIsTty := false, progressers := none }

/-- C7 scenario: a Subversion working copy under `top` whose `.vcallrc`
cannot be parsed. -/
def env_c7 : Env :=
  { proc := fun _ => .ok "" "", rc := fun _ => .malformed,
    fs := fun _ => .mk "top" [.mk ".svn" [] []] [],
    stdinIsTty := false, stdoutIsTty := false, progressers := none }

/-- C8 scenario: `DISPLAY` is set, so `PROGRESSERS = [tqdm_gui]`, and
`tqdm_gui` raises `RuntimeError` at start. -/
def env_c8 : Env :=
  { proc := fun _ => .ok "" "", rc := fun _ => .absent,
    fs := fun _ => .mk "." [] [], stdinIsTty := false, stdoutIsTty := false,
    progressers := some [⟨true⟩] }

/-- C10 scenario: the first attempt of an invocation exits with status 2 and
the uncaptured retry succeeds. -/
def env_c10 : Env :=
  { proc := fun h => if h.length = 0 then .exit 2 else .ok "" "",
    rc := fun _ => .absent, fs := fun _ => .mk "d" [.mk ".git" [] []] [],
    stdinIsTty := false, stdoutIsTty := false, progressers := none }

theorem py_startswith_iff (s pre : String) :
    py_startswith s pre = true ↔ pre.data <+: s.data := by
  simp [py_startswith, List.isPrefixOf_iff_prefix]

theorem not_startswith_st_of_startswith_upg (s : String)
    (h : py_startswith s "upg" = true) : py_startswith s "st" = false := by
  obtain ⟨t, ht⟩ := (py_startswith_iff s "upg").mp h
  have hs : s.data = 'u' :: 'p' :: 'g' :: t := ht.symm
  simp [py_startswith, hs, List.isPrefixOf]

theorem not_startswith_st_of_startswith_up (s : String)
    (h : py_startswith s "up" = true) : py_startswith s "st" = false := by
  obtain ⟨t, ht⟩ := (py_startswith_iff s "up").mp h
  have hs : s.data = 'u' :: 'p' :: t := ht.symm
  simp [py_startswith, hs, List.isPrefixOf]

/-- The loop of `print_except` returns `True` exactly when a line survives the
noise filter, and prints exactly the surviving lines with the prefix. -/
theorem print_except_loop_spec (pfx : String) (noise : String → Bool)
    (lines : List String) (res : Bool) :
    print_except_loop pfx noise lines res =
      (res || lines.any (fun l => !noise l),
       (lines.filter (fun l => !noise l)).map (fun l => pfx ++ " " ++ l)) := by
  induction lines generalizing res with
  | nil => simp [print_except_loop]
  | cons l ls ih =>
    by_cases h : noise l = true <;>
      simp [print_except_loop, h, ih]

theorem print_except_spec (output : Option String) (noise : String → Bool)
    (dirname : Option String) :
    print_except output noise dirname =
      ((output_lines output).any (fun l => !noise l),
       ((output_lines output).filter (fun l => !noise l)).map
         (fun l => (match dirname with
                    | some d => if d = "" then "" else d ++ ":"
                    | none => "") ++ " " ++ l)) := by
  simp [print_except, print_except_loop_spec]

/-- The `invoke` always appends exactly its own invocation to the history and
touches nothing else in the state. -/
theorem invoke_state (p m : String) (a : List Arg) (k : List (String × String))
    (env : Env) (s : PState) :
    ((invoke p m a k) env s).2 =
      { s with history := s.history ++ [⟨p, m, a, k⟩] } := by
  unfold invoke
  split <;> rfl

/-- First attempt fails with a nonzero exit status and the retry also fails:
`try_prog` prints the retry diagnostic, re-invokes the program once as a plain
call with the same arguments and keyword arguments, and the retry's
`ReturncodeError` propagates. -/
theorem try_prog_retry_fail (p f d : String) (a0 : Arg) (rest : List Arg)
    (k : List (String × String)) (env : Env) (s : PState) (c c' : Int)
    (hconf : get_config_args env p a0.format d = .ok none)
    (h1 : env.proc s.history = .exit c)
    (h2 : env.proc (s.history ++ [⟨p, f, a0 :: rest, k⟩]) = .exit c') :
    try_prog p f d (a0 :: rest) k env s =
      (.error (.returncode c'),
       { s with
         history := s.history ++ [⟨p, f, a0 :: rest, k⟩, ⟨p, "call", a0 :: rest, k⟩],
         stderr := s.stderr ++ [returncode_diag p d] }) := by
  simp [try_prog, invoke, hconf, h1, h2]

/-- First attempt fails with a nonzero exit status and the retry succeeds:
the `except ReturncodeError` handler falls off the end of `try_prog`, which
therefore returns `None`. -/
theorem try_prog_retry_ok (p f d : String) (a0 : Arg) (rest : List Arg)
    (k : List (String × String)) (env : Env) (s : PState) (c : Int)
    (out err : String)
    (hconf : get_config_args env p a0.format d = .ok none)
    (h1 : env.proc s.history = .exit c)
    (h2 : env.proc (s.history ++ [⟨p, f, a0 :: rest, k⟩]) = .ok out err) :
    try_prog p f d (a0 :: rest) k env s =
      (.ok none,
       { s with
         history := s.history ++ [⟨p, f, a0 :: rest, k⟩, ⟨p, "call", a0 :: rest, k⟩],
         stderr := s.stderr ++ [returncode_diag p d] }) := by
  simp [try_prog, invoke, hconf, h1, h2]

/-- First attempt cannot start the process: `try_prog` prints the `OSError`
diagnostic and re-raises — there is no retry, so exactly one invocation is
recorded. -/
theorem try_prog_oserror (p f d : String) (a0 : Arg) (rest : List Arg)
    (k : List (String × String)) (env : Env) (s : PState)
    (hconf : get_config_args env p a0.format d = .ok none)
    (h1 : env.proc s.history = .launchFailure) :
    try_prog p f d (a0 :: rest) k env s =
      (.error .osError,
       { s with
         history := s.history ++ [⟨p, f, a0 :: rest, k⟩],
         stderr := s.stderr ++ [oserror_diag p d] }) := by
  simp [try_prog, invoke, hconf, h1]

/-- A successful first attempt records exactly one invocation and returns its
capture. -/
theorem try_prog_ok (p f d : String) (a0 : Arg) (rest : List Arg)
    (k : List (String × String)) (env : Env) (s : PState) (out err : String)
    (hconf : get_config_args env p a0.format d = .ok none)
    (h1 : env.proc s.history = .ok out err) :
    try_prog p f d (a0 :: rest) k env s =
      (.ok (some (if f = "getoutput_error" then .outErr out err
                  else if f = "getoutput" then .outOnly out else .unit)),
       { s with history := s.history ++ [⟨p, f, a0 :: rest, k⟩] }) := by
  simp [try_prog, invoke, hconf, h1]

/-- The `try_prog` never touches the walker's dispatch log. -/
theorem try_prog_dispatches (p f d : String) (a : List Arg)
    (k : List (String × String)) (env : Env) (s : PState) :
    ((try_prog p f d a k) env s).2.dispatches = s.dispatches := by
  rcases a with _ | ⟨a0, rest⟩
  · simp [try_prog]
  rcases hc : get_config_args env p a0.format d with e | _ | ca
  · simp [try_prog, hc]
  · rcases h1 : env.proc s.history with ⟨out, err⟩ | c | _
    · simp [try_prog, invoke, hc, h1]
    · rcases h2 : env.proc (s.history ++ [⟨p, f, a0 :: rest, k⟩]) with ⟨o2, e2⟩ | c2 | _ <;>
        simp [try_prog, invoke, hc, h1, h2]
    · simp [try_prog, invoke, hc, h1]
  · rcases h1 : env.proc s.history with ⟨out, err⟩ | c | _
    · simp [try_prog, invoke, hc, h1]
    · rcases h2 : env.proc (s.history ++ [⟨p, f, List.map Arg.str ca, []⟩]) with ⟨o2, e2⟩ | c2 | _ <;>
        simp [try_prog, invoke, hc, h1, h2]
    · simp [try_prog, invoke, hc, h1]

/-- Helper: read off dispatch preservation from a `try_prog` result
equation. -/
theorem snd_dispatches_of_try_prog (p f d : String) (a : List Arg)
    (k : List (String × String)) (env : Env) (s : PState)
    (r : Except PyError (Option Capture)) (s' : PState)
    (h : try_prog p f d a k env s = (r, s')) : s'.dispatches = s.dispatches := by
  have h' := try_prog_dispatches p f d a k env s
  rw [h] at h'
  exact h'

/-- Helper: read off dispatch preservation from an `invoke` result
equation. -/
theorem snd_dispatches_of_invoke (p m : String) (a : List Arg)
    (k : List (String × String)) (env : Env) (s : PState)
    (r : Except PyError Capture) (s' : PState)
    (h : invoke p m a k env s = (r, s')) : s'.dispatches = s.dispatches := by
  have h' : ((invoke p m a k) env s).2.dispatches = s.dispatches := by
    rw [invoke_state]
  rw [h] at h'
  exact h' 

theorem run_svn_dispatches (cmd d : String) (env : Env) (s : PState) :
    ((run_svn cmd d) env s).2.dispatches = s.dispatches := by
  simp only [run_svn]
  split
  next e s1 heq => exact snd_dispatches_of_try_prog _ _ _ _ _ _ _ _ _ heq
  next output s1 heq =>
    simpa using snd_dispatches_of_try_prog _ _ _ _ _ _ _ _ _ heq

theorem run_git_dispatches (cmd d : String) (env : Env) (s : PState) :
    ((run_git cmd d) env s).2.dispatches = s.dispatches := by
  simp only [run_git]
  split
  · split
    next e s1 heq => exact snd_dispatches_of_try_prog _ _ _ _ _ _ _ _ _ heq
    next r s1 heq =>
      have h1 := snd_dispatches_of_try_prog _ _ _ _ _ _ _ _ _ heq
      split
      next e heq2 => exact h1
      next oe heq2 =>
        split
        next e s3 heq3 =>
          have h3 := snd_dispatches_of_try_prog _ _ _ _ _ _ _ _ _ heq3
          simp at h3
          rw [h3, h1]
        next output s3 heq3 =>
          have h3 := snd_dispatches_of_try_prog _ _ _ _ _ _ _ _ _ heq3
          simp at h3
          simpa [h3] using h1
  · rfl

theorem run_cvs_dispatches (cmd d : String) (env : Env) (s : PState) :
    ((run_cvs cmd d) env s).2.dispatches = s.dispatches := by
  simp only [run_cvs]
  split
  · rfl
  · split
    next e s1 heq => exact snd_dispatches_of_try_prog _ _ _ _ _ _ _ _ _ heq
    next r s1 heq =>
      have h1 := snd_dispatches_of_try_prog _ _ _ _ _ _ _ _ _ heq
      split
      next e heq2 => exact h1
      next oe heq2 =>
        split <;> simpa using h1

theorem run_hg_summary_tail_dispatches (a : List Arg) (d : String)
    (k : List (String × String)) (env : Env) (s : PState) :
    ((run_hg_summary_tail a d k) env s).2.dispatches = s.dispatches := by
  simp only [run_hg_summary_tail]
  split
  next e s1 heq => exact snd_dispatches_of_try_prog _ _ _ _ _ _ _ _ _ heq
  next output s1 heq =>
    simpa using snd_dispatches_of_try_prog _ _ _ _ _ _ _ _ _ heq

theorem run_hg_update_tail_dispatches (d : String) (env : Env) (s : PState) :
    ((run_hg_update_tail d) env s).2.dispatches = s.dispatches := by
  simp only [run_hg_update_tail]
  split
  next e s1 heq => exact snd_dispatches_of_try_prog _ _ _ _ _ _ _ _ _ heq
  next output s1 heq =>
    simpa using snd_dispatches_of_try_prog _ _ _ _ _ _ _ _ _ heq

theorem run_hg_dispatches (cmd d : String) (env : Env) (s : PState) :
    ((run_hg cmd d) env s).2.dispatches = s.dispatches := by
  simp only [run_hg]
  split
  · split
    next code s1 heq =>
      have h1 := snd_dispatches_of_invoke _ _ _ _ _ _ _ _ heq
      split
      · rw [run_hg_summary_tail_dispatches, h1]
      · exact h1
    next e s1 hne heq =>
      exact snd_dispatches_of_invoke _ _ _ _ _ _ _ _ heq
    next c s1 heq =>
      have h1 := snd_dispatches_of_invoke _ _ _ _ _ _ _ _ heq
      rw [run_hg_summary_tail_dispatches, h1]
  · split
    · rfl
    · split
      · split
        next code s1 heq =>
          have h1 := snd_dispatches_of_invoke _ _ _ _ _ _ _ _ heq
          split
          · rw [run_hg_update_tail_dispatches, h1]
          · exact h1
        next e s1 hne heq =>
          exact snd_dispatches_of_invoke _ _ _ _ _ _ _ _ heq
        next c s1 heq =>
          have h1 := snd_dispatches_of_invoke _ _ _ _ _ _ _ _ heq
          rw [run_hg_update_tail_dispatches, h1]
      · rw [run_hg_summary_tail_dispatches]

/-- Every registered runner leaves the walker's dispatch log unchanged. -/
theorem runner_run_dispatches (r : Runner) (hr : r ∈ RUNNERS) (cmd d : String)
    (env : Env) (s : PState) :
    (r.run cmd d env s).2.dispatches = s.dispatches := by
  simp only [RUNNERS, List.mem_cons, List.not_mem_nil, or_false] at hr
  rcases hr with h | h | h | h <;> subst h
  · exact run_git_dispatches cmd d env s
  · exact run_hg_dispatches cmd d env s
  · exact run_svn_dispatches cmd d env s
  · exact run_cvs_dispatches cmd d env s

/-- A visited directory with no registered signature among its children is
skipped: the walk simply continues. -/
theorem walk_entries_skip (cmd : String) (e : WalkEntry) (rest : List WalkEntry)
    (env : Env) (s : PState)
    (hfind : RUNNERS.find? (fun r => e.childDirnames.contains r.sig) = none) :
    walk_entries cmd (e :: rest) env s = walk_entries cmd rest env s := by
  simp only [walk_entries, hfind]

/-- A `ReturncodeError` escaping the dispatched runner is swallowed by the
walker, which continues with the remaining entries. -/
theorem walk_entries_continue (cmd : String) (e : WalkEntry)
    (rest : List WalkEntry) (env : Env) (s : PState) (r : Runner) (c : Int)
    (s2 : PState)
    (hfind : RUNNERS.find? (fun r => e.childDirnames.contains r.sig) = some r)
    (hrun : r.run cmd e.path env (dispatch_state s e r cmd) =
      (.error (.returncode c), s2)) :
    walk_entries cmd (e :: rest) env s = walk_entries cmd rest env s2 := by
  simp only [walk_entries, hfind, hrun]

/-- Any exception other than a `ReturncodeError` escaping the dispatched
runner propagates out of the walker, aborting the walk with the remaining
entries unprocessed. -/
theorem walk_entries_fatal (cmd : String) (e : WalkEntry)
    (rest : List WalkEntry) (env : Env) (s : PState) (r : Runner)
    (err : PyError) (s2 : PState)
    (hfind : RUNNERS.find? (fun r => e.childDirnames.contains r.sig) = some r)
    (hne : ∀ c : Int, err ≠ .returncode c)
    (hrun : r.run cmd e.path env (dispatch_state s e r cmd) =
      (.error err, s2)) :
    walk_entries cmd (e :: rest) env s = (.error err, s2) := by
  simp only [walk_entries, hfind, hrun]

/-- A runner returning normally contributes its directory exactly when the
result is truthy, and the walk continues. -/
theorem walk_entries_ok_step (cmd : String) (e : WalkEntry)
    (rest : List WalkEntry) (env : Env) (s : PState) (r : Runner)
    (v : Option Bool) (s2 : PState)
    (hfind : RUNNERS.find? (fun r => e.childDirnames.contains r.sig) = some r)
    (hrun : r.run cmd e.path env (dispatch_state s e r cmd) = (.ok v, s2)) :
    walk_entries cmd (e :: rest) env s =
      (match walk_entries cmd rest env s2 with
       | (.ok acc, s3) => (.ok ((if v = some true then [e.path] else []) ++ acc), s3)
       | (.error e', s3) => (.error e', s3)) := by
  simp only [walk_entries, hfind, hrun]

/-- The dispatch log grown by a walk is always the first-matching-signature
record of a prefix of the visited entries: at most one dispatch per visited
directory, decided by `dispatch_of`. -/
theorem walk_entries_dispatch_log (cmd : String) (entries : List WalkEntry)
    (env : Env) (s : PState) :
    ∃ n, ((walk_entries cmd entries) env s).2.dispatches =
      s.dispatches ++ (entries.take n).filterMap dispatch_of := by
  induction entries generalizing s with
  | nil =>
    refine ⟨0, ?_⟩
    simp [walk_entries]
  | cons e rest ih =>
    rcases hfind : RUNNERS.find? (fun r => e.childDirnames.contains r.sig)
        with _ | r
    · have hde0 : dispatch_of e = none := by
        unfold dispatch_of
        rw [hfind]
        rfl
      obtain ⟨n, hn⟩ := ih s
      refine ⟨n + 1, ?_⟩
      rw [walk_entries_skip cmd e rest env s hfind, hn]
      simp [hde0, List.take_succ_cons, List.filterMap_cons]
    · have hr : r ∈ RUNNERS := List.mem_of_find?_eq_some hfind
      have hs1 : (dispatch_state s e r cmd).dispatches =
          s.dispatches ++ [(e.path, r.name)] := rfl
      have hde : dispatch_of e = some (e.path, r.name) := by
        unfold dispatch_of
        rw [hfind]
        rfl
      rcases hrun : r.run cmd e.path env (dispatch_state s e r cmd)
          with ⟨res, s2⟩
      have hd : s2.dispatches = s.dispatches ++ [(e.path, r.name)] := by
        have h0 := runner_run_dispatches r hr cmd e.path env
          (dispatch_state s e r cmd)
        rw [hrun] at h0
        rw [← hs1]
        exact h0
      cases res with
      | ok v =>
        obtain ⟨n, hn⟩ := ih s2
        rcases hrest : walk_entries cmd rest env s2 with ⟨res2, s3⟩
        rw [hrest] at hn
        have hn3 : s3.dispatches = s2.dispatches ++
            (rest.take n).filterMap dispatch_of := hn
        refine ⟨n + 1, ?_⟩
        rw [walk_entries_ok_step cmd e rest env s r v s2 hfind hrun, hrest]
        cases res2 <;>
          simp [hn3, hd, hde, List.take_succ_cons, List.filterMap_cons]
      | error err =>
        by_cases hrc : ∃ c : Int, err = .returncode c
        · obtain ⟨c, rfl⟩ := hrc
          obtain ⟨n, hn⟩ := ih s2
          refine ⟨n + 1, ?_⟩
          rw [walk_entries_continue cmd e rest env s r c s2 hfind hrun, hn]
          simp [hd, hde, List.take_succ_cons, List.filterMap_cons]
        · have hne : ∀ c : Int, err ≠ .returncode c := by
            intro c h
            exact hrc ⟨c, h⟩
          refine ⟨1, ?_⟩
          rw [walk_entries_fatal cmd e rest env s r err s2 hfind hne hrun]
          have : (((.error err, s2) :
              Except PyError (List String) × PState)).2.dispatches =
            s.dispatches ++ [(e.path, r.name)] := hd
          rw [this]
          simp [hde, List.take_succ_cons, List.filterMap_cons]

/-- A walk that finishes without an exception has signature-checked every
entry: its dispatch log is exactly the first-matching-signature record of all
visited entries. -/
theorem walk_entries_dispatch_log_ok (cmd : String) (entries : List WalkEntry)
    (env : Env) (s : PState) (acc : List String) (s' : PState)
    (h : (walk_entries cmd entries) env s = (.ok acc, s')) :
    s'.dispatches = s.dispatches ++ entries.filterMap dispatch_of := by
  induction entries generalizing s acc with
  | nil =>
    simp only [walk_entries] at h
    cases h
    simp
  | cons e rest ih =>
    rcases hfind : RUNNERS.find? (fun r => e.childDirnames.contains r.sig)
        with _ | r
    · have hde0 : dispatch_of e = none := by
        unfold dispatch_of
        rw [hfind]
        rfl
      rw [walk_entries_skip cmd e rest env s hfind] at h
      rw [ih s acc h]
      simp [hde0, List.filterMap_cons]
    · have hr : r ∈ RUNNERS := List.mem_of_find?_eq_some hfind
      have hs1 : (dispatch_state s e r cmd).dispatches =
          s.dispatches ++ [(e.path, r.name)] := rfl
      have hde : dispatch_of e = some (e.path, r.name) := by
        unfold dispatch_of
        rw [hfind]
        rfl
      rcases hrun : r.run cmd e.path env (dispatch_state s e r cmd)
          with ⟨res, s2⟩
      have hd : s2.dispatches = s.dispatches ++ [(e.path, r.name)] := by
        have h0 := runner_run_dispatches r hr cmd e.path env
          (dispatch_state s e r cmd)
        rw [hrun] at h0
        rw [← hs1]
        exact h0
      cases res with
      | ok v =>
        rw [walk_entries_ok_step cmd e rest env s r v s2 hfind hrun] at h
        rcases hrest : walk_entries cmd rest env s2 with ⟨res2, s3⟩
        rw [hrest] at h
        cases res2 with
        | ok acc2 =>
          cases h
          rw [ih s2 acc2 hrest, hd]
          simp [hde, List.filterMap_cons]
        | error err2 =>
          cases h
      | error err =>
        by_cases hrc : ∃ c : Int, err = .returncode c
        · obtain ⟨c, rfl⟩ := hrc
          rw [walk_entries_continue cmd e rest env s r c s2 hfind hrun] at h
          rw [ih s2 acc h, hd]
          simp [hde, List.filterMap_cons]
        · have hne : ∀ c : Int, err ≠ .returncode c := by
            intro c hcc
            exact hrc ⟨c, hcc⟩
          rw [walk_entries_fatal cmd e rest env s r err s2 hfind hne hrun] at h
          cases h


/-- Every walked tree starts with an entry for its own root path. -/
theorem os_walk_from_head (p : String) (t : DirTree) :
    ∃ e, e ∈ os_walk_from p t ∧ e.path = p := by
  cases t with
  | mk n subs files =>
    refine ⟨⟨p, subs.map DirTree.dirname, files⟩, ?_, rfl⟩
    rw [os_walk_from]
    exact List.mem_cons_self _ _

/-- Membership in the walk of a list of children decomposes into membership
in the walk of one child. -/
theorem mem_os_walk_children_iff (root : String) (ts : List DirTree)
    (e : WalkEntry) :
    e ∈ os_walk_children root ts ↔
      ∃ c ∈ ts, e ∈ os_walk_from (root ++ "/" ++ c.dirname) c := by
  induction ts with
  | nil => simp [os_walk_children]
  | cons t ts ih =>
    rw [os_walk_children, List.mem_append, ih]
    constructor
    · rintro (h | ⟨c, hc, hce⟩)
      · exact ⟨t, List.mem_cons_self _ _, h⟩
      · exact ⟨c, List.mem_cons_of_mem _ hc, hce⟩
    · rintro ⟨c, hc, hce⟩
      rcases List.mem_cons.mp hc with rfl | hc2
      · exact Or.inl hce
      · exact Or.inr ⟨c, hc2, hce⟩

/-- Auxiliary strong induction (on tree size) for `os_walk_from_children`. -/
theorem os_walk_from_children_aux (k : Nat) :
    ∀ (t : DirTree), sizeOf t ≤ k → ∀ (root : String) (e : WalkEntry),
      e ∈ os_walk_from root t → ∀ d ∈ e.childDirnames,
      ∃ e', e' ∈ os_walk_from root t ∧ e'.path = e.path ++ "/" ++ d := by
  induction k with
  | zero =>
    intro t ht
    cases t with
    | mk n subs files =>
      simp only [DirTree.mk.sizeOf_spec] at ht
      omega
  | succ k ih =>
    intro t ht root e he d hd
    cases t with
    | mk n subs files =>
      simp only [DirTree.mk.sizeOf_spec] at ht
      rw [os_walk_from] at he
      rcases List.mem_cons.mp he with rfl | he2
      · obtain ⟨c, hc, hcd⟩ := List.mem_map.mp hd
        obtain ⟨e', he', hp⟩ := os_walk_from_head (root ++ "/" ++ c.dirname) c
        refine ⟨e', ?_, ?_⟩
        · rw [os_walk_from]
          exact List.mem_cons_of_mem _
            ((mem_os_walk_children_iff root subs e').mpr ⟨c, hc, he'⟩)
        · rw [hp, hcd]
      · obtain ⟨c, hc, hce⟩ := (mem_os_walk_children_iff root subs e).mp he2
        have hsz : sizeOf c ≤ k := by
          have h1 := List.sizeOf_lt_of_mem hc
          omega
        obtain ⟨e', he', hp⟩ :=
          ih c hsz (root ++ "/" ++ c.dirname) e hce d hd
        refine ⟨e', ?_, hp⟩
        rw [os_walk_from]
        exact List.mem_cons_of_mem _
          ((mem_os_walk_children_iff root subs e').mpr ⟨c, hc, he'⟩)

/-- The `os.walk` is top-down and is never pruned: every immediate subdirectory
name of a visited directory is itself visited (at the joined path). -/
theorem os_walk_from_children (t : DirTree) (root : String) (e : WalkEntry)
    (he : e ∈ os_walk_from root t) (d : String) (hd : d ∈ e.childDirnames) :
    ∃ e', e' ∈ os_walk_from root t ∧ e'.path = e.path ++ "/" ++ d :=
  os_walk_from_children_aux (sizeOf t) t le_rfl root e he d hd

/-- A configuration key `"<prog>.<subcommand>"` always contains a dot, so it
can never collide with the `"dirname"` default. -/
theorem config_key_ne_dirname (p sub : String) : p ++ "." ++ sub ≠ "dirname" := by
  intro h
  have hdot : ("." : String).data = ['.'] := rfl
  have hmem : '.' ∈ (p ++ "." ++ sub).data := by
    rw [String.data_append, String.data_append, hdot]
    simp
  rw [h] at hmem
  have : ("dirname" : String).data = ['d', 'i', 'r', 'n', 'a', 'm', 'e'] := rfl
  rw [this] at hmem
  simp at hmem

/-- A missing `.vcallrc` yields no override and no error. -/
theorem get_config_args_absent (env : Env) (p sub d : String)
    (h : env.rc d = .absent) : get_config_args env p sub d = .ok none := by
  simp [get_config_args, parse_config, h, config_get]

/-- An unreadable `.vcallrc` yields no override and no error. -/
theorem get_config_args_unreadable (env : Env) (p sub d : String)
    (h : env.rc d = .unreadable) : get_config_args env p sub d = .ok none := by
  simp [get_config_args, parse_config, h, config_get]

/-- A parsed `.vcallrc` without the selected interactivity section yields no
override and no error (`NoSectionError` is caught). -/
theorem get_config_args_no_section (env : Env) (p sub d : String)
    (secs : List (String × List (String × String)))
    (h : env.rc d = .parsed secs)
    (hs : secs.lookup (if env.stdinIsTty then "interactive" else "noninteractive") = none) :
    get_config_args env p sub d = .ok none := by
  simp [get_config_args, parse_config, h, config_get, hs]

/-- A parsed `.vcallrc` whose selected section lacks the key yields no
override and no error (`NoOptionError` is caught). -/
theorem get_config_args_no_option (env : Env) (p sub d : String)
    (secs : List (String × List (String × String)))
    (opts : List (String × String))
    (h : env.rc d = .parsed secs)
    (hs : secs.lookup (if env.stdinIsTty then "interactive" else "noninteractive") = some opts)
    (ho : opts.lookup (p ++ "." ++ sub) = none) :
    get_config_args env p sub d = .ok none := by
  simp [get_config_args, parse_config, h, config_get, hs, ho,
    config_key_ne_dirname p sub]

/-- A `.vcallrc` that cannot be parsed raises `ParsingError`, which
`get_config_args` does not catch. -/
theorem get_config_args_malformed (env : Env) (p sub d : String)
    (h : env.rc d = .malformed) :
    get_config_args env p sub d = .error .parsingError := by
  simp [get_config_args, parse_config, h]

/-- The update tail of `run_hg` never produces a reportable result: the
filtering result is discarded by the bare `return`. -/
theorem run_hg_update_tail_not_reportable (d : String) (env : Env) (s : PState) :
    reportable_result ((run_hg_update_tail d) env s).1 = false := by
  simp only [run_hg_update_tail]
  split <;> rfl

/-- The `run_hg` with the `update` command never produces a reportable result,
whatever the environment does. -/
theorem run_hg_update_not_reportable (d : String) (env : Env) (s : PState) :
    reportable_result ((run_hg "update" d) env s).1 = false := by
  simp only [run_hg]
  rw [if_neg (show ¬ (("update" : String) = "status") by decide),
      if_neg (show ¬ (("update" : String) = "upgrade") by decide)]
  simp only [if_true]
  split
  next code s1 heq =>
    split
    · exact run_hg_update_tail_not_reportable d env s1
    · rfl
  next e s1 hne heq => rfl
  next c s1 heq => exact run_hg_update_tail_not_reportable d env s1

/-- A fatal error from a root's walk propagates out of the session loop. -/
theorem vcall_roots_fatal (cmd d : String) (ds : List String) (env : Env)
    (s : PState) (err : PyError) (s1 : PState)
    (h : walk_dirname cmd d env s = (.error err, s1)) :
    vcall_roots cmd (d :: ds) env s = (.error err, s1) := by
  simp only [vcall_roots, h]

/-- C1: every command string with prefix `"st"` resolves to `"status"`, every
one with prefix `"upg"` resolves to `"upgrade"`, and every remaining string
with prefix `"up"` resolves to `"update"`; in particular `"up"` resolves to
`"update"` and never to `"upgrade"`, because the `"upg"` test precedes the
`"up"` test. -/
theorem claim_c1_command_prefix_resolution :
    (∀ s : String, py_startswith s "st" = true → resolve_command s = "status") ∧
    (∀ s : String, py_startswith s "upg" = true → resolve_command s = "upgrade") ∧
    (∀ s : String, py_startswith s "up" = true → py_startswith s "upg" = false →
      resolve_command s = "update") ∧
    resolve_command "up" = "update" ∧ resolve_command "up" ≠ "upgrade" := by
  refine ⟨?_, ?_, ?_, by decide, by decide⟩
  · intro s h
    simp [resolve_command, h]
  · intro s h
    have hst := not_startswith_st_of_startswith_upg s h
    simp [resolve_command, h, hst]
  · intro s h hng
    have hst := not_startswith_st_of_startswith_up s h
    simp [resolve_command, h, hst, hng]

/-- C1 witness: concrete prefixes resolved through the theorem. -/
theorem claim_c1_witness :
    resolve_command "stat" = "status" ∧ resolve_command "upgrade" = "upgrade" ∧
    resolve_command "update" = "update" :=
  ⟨claim_c1_command_prefix_resolution.1 "stat" (by decide),
   claim_c1_command_prefix_resolution.2.1 "upgrade" (by decide),
   claim_c1_command_prefix_resolution.2.2.1 "update" (by decide) (by decide)⟩

/-- C2 (divergence witness): with `.vcallrc` holding
`git.status = status --short` in the selected `[interactive]` section, the
Git `status` runner still performs both default invocations
(`git -C repo remote update`, then `git -C repo status --porcelain`) and
never `["status", "--short"]`: `try_prog` looks up the key
`"git." + args[0]`, and for Git `args[0]` is the `"-C"` flag, so the key
consulted is `"git.-C"` and the documented `"git.status"` override is never
found — even though the configuration resolver would return exactly
`["status", "--short"]` if it were asked for `("git", "status")`. -/
theorem claim_c2_git_config_override_ignored :
    (run_git "status" "repo") env_c2 st0 =
      (.ok (some false),
       ⟨[git_remote_update_inv "repo", git_status_porcelain_inv "repo"],
        [], [], []⟩) ∧
    get_config_args env_c2 "git" "status" "repo" =
      .ok (some ["status", "--short"]) ∧
    get_config_args env_c2 "git" "-C" "repo" = .ok none := by
  refine ⟨by rfl, by rfl, by rfl⟩

/-- C3 counterexample: for the Mercurial `update` command (pull exits 1 —
nothing incoming — and `hg update` reports one updated file), the update
summary line survives the all-zero noise filter and is printed to the error
stream, yet the runner's result is `None`, so the walker does not yield the
directory: reportability is not equivalent to a line surviving. -/
theorem claim_c3_counterexample_hg_update_discards_result :
    re_hg_0_updates
      "1 files updated, 0 files merged, 0 files removed, 0 files unresolved" =
      false ∧
    (run_hg "update" "d") env_c3 st0 =
      (.ok none,
       ⟨[hg_pull_inv "d", hg_update_inv "d"], [],
        ["d: 1 files updated, 0 files merged, 0 files removed, 0 files unresolved"],
        []⟩) ∧
    (walk_entries "update" [⟨"d", [".hg"], []⟩]) env_c3 st0 =
      (.ok [],
       ⟨[hg_pull_inv "d", hg_update_inv "d"], [],
        ["* run_hg update: d",
         "d: 1 files updated, 0 files merged, 0 files removed, 0 files unresolved"],
        [("d", "run_hg")]⟩) := by
  refine ⟨by rfl, by rfl, by rfl⟩

/-- C3 (amended): the Boolean result of `print_except` is `True` exactly when
at least one output line survives the noise filter, and the tree walker
yields a visited directory exactly when its runner returns `True`; but the
Mercurial `update` command discards its filtering result and always returns a
non-reportable `None`, even when surviving lines were printed. -/
theorem claim_c3_reportable_iff_line_survives_amended :
    (∀ (output : Option String) (noise : String → Bool)
        (dirname : Option String),
      (print_except output noise dirname).1 =
        (output_lines output).any (fun l => !noise l)) ∧
    (∀ (cmd : String) (e : WalkEntry) (rest : List WalkEntry) (env : Env)
        (s : PState) (r : Runner) (v : Option Bool) (s2 : PState)
        (acc : List String) (s3 : PState),
      RUNNERS.find? (fun r => e.childDirnames.contains r.sig) = some r →
      r.run cmd e.path env (dispatch_state s e r cmd) = (.ok v, s2) →
      walk_entries cmd rest env s2 = (.ok acc, s3) →
      walk_entries cmd (e :: rest) env s =
        (.ok ((if v = some true then [e.path] else []) ++ acc), s3)) ∧
    (∀ (d : String) (env : Env) (s : PState),
      reportable_result ((run_hg "update" d) env s).1 = false) := by
  refine ⟨?_, ?_, run_hg_update_not_reportable⟩
  · intro output noise dirname
    rw [print_except_spec]
  · intro cmd e rest env s r v s2 acc s3 hfind hrun hrest
    rw [walk_entries_ok_step cmd e rest env s r v s2 hfind hrun, hrest]

/-- C3 witness: a Subversion status whose single surviving line makes the
runner return `True` and the walker yield the directory; in the quiet
environment the result is `False` and nothing is yielded. -/
theorem claim_c3_witness :
    walk_entries "status" [⟨"top", [".svn"], []⟩] env_c3w st0 =
      (.ok ["top"],
       ⟨[svn_status_inv "top"], [], ["* run_svn status: top", " M foo"],
        [("top", "run_svn")]⟩) ∧
    walk_entries "status" [⟨"top", [".svn"], []⟩] env_ok st0 =
      (.ok [],
       ⟨[svn_status_inv "top"], [], ["* run_svn status: top"],
        [("top", "run_svn")]⟩) := by
  refine ⟨?_, ?_⟩
  · exact claim_c3_reportable_iff_line_survives_amended.2.1 "status"
      ⟨"top", [".svn"], []⟩ [] env_c3w st0 ⟨".svn", "run_svn", run_svn⟩
      (some true)
      ⟨[svn_status_inv "top"], [], ["* run_svn status: top", " M foo"],
       [("top", "run_svn")]⟩ []
      ⟨[svn_status_inv "top"], [], ["* run_svn status: top", " M foo"],
       [("top", "run_svn")]⟩ (by rfl) (by rfl) (by rfl)
  · exact claim_c3_reportable_iff_line_survives_amended.2.1 "status"
      ⟨"top", [".svn"], []⟩ [] env_ok st0 ⟨".svn", "run_svn", run_svn⟩
      (some false)
      ⟨[svn_status_inv "top"], [], ["* run_svn status: top"],
       [("top", "run_svn")]⟩ []
      ⟨[svn_status_inv "top"], [], ["* run_svn status: top"],
       [("top", "run_svn")]⟩ (by rfl) (by rfl) (by rfl)

/-- C4: the registry is consulted in the fixed order `.git`, `.hg`, `.svn`,
`CVS`; the dispatch decision at each visited directory is exactly the first
present signature (and `none` when no marker is present); every walk's
dispatch log records at most one dispatch per visited entry, in that order;
a completed walk has made exactly that decision at every entry; and `os.walk`
is never pruned — every immediate subdirectory of a visited directory is
itself visited. -/
theorem claim_c4_single_dispatch_registry_order :
    (RUNNERS.map (fun r => (r.sig, r.name)) =
      [(".git", "run_git"), (".hg", "run_hg"), (".svn", "run_svn"),
       ("CVS", "run_cvs")]) ∧
    (∀ e : WalkEntry, dispatch_of e =
      (if ".git" ∈ e.childDirnames then some (e.path, "run_git")
       else if ".hg" ∈ e.childDirnames then some (e.path, "run_hg")
       else if ".svn" ∈ e.childDirnames then some (e.path, "run_svn")
       else if "CVS" ∈ e.childDirnames then some (e.path, "run_cvs")
       else none)) ∧
    (∀ (cmd : String) (entries : List WalkEntry) (env : Env) (s : PState),
      ∃ n, ((walk_entries cmd entries) env s).2.dispatches =
        s.dispatches ++ (entries.take n).filterMap dispatch_of) ∧
    (∀ (cmd : String) (entries : List WalkEntry) (env : Env) (s : PState)
        (acc : List String) (s' : PState),
      (walk_entries cmd entries) env s = (.ok acc, s') →
      s'.dispatches = s.dispatches ++ entries.filterMap dispatch_of) ∧
    (∀ (t : DirTree) (root : String) (e : WalkEntry),
      e ∈ os_walk_from root t → ∀ d ∈ e.childDirnames,
      ∃ e', e' ∈ os_walk_from root t ∧ e'.path = e.path ++ "/" ++ d) := by
  refine ⟨rfl, ?_, walk_entries_dispatch_log, walk_entries_dispatch_log_ok,
    os_walk_from_children⟩
  intro e
  by_cases h1 : ".git" ∈ e.childDirnames <;>
  by_cases h2 : ".hg" ∈ e.childDirnames <;>
  by_cases h3 : ".svn" ∈ e.childDirnames <;>
  by_cases h4 : "CVS" ∈ e.childDirnames <;>
  simp [dispatch_of, RUNNERS, List.find?_cons, h1, h2, h3, h4]

/-- C4 witness: the dispatch decision, the dispatch log of a completed walk
and the unpruned traversal, on a concrete tree with both an `.hg` and a
`.git` marker present. -/
theorem claim_c4_witness :
    dispatch_of ⟨"p", [".hg", ".git"], []⟩ = some ("p", "run_git") ∧
    (∃ n,
      ((walk_entries "status" [⟨"top", [".svn"], []⟩]) env_ok st0).2.dispatches =
        st0.dispatches ++
          (([⟨"top", [".svn"], []⟩] : List WalkEntry).take n).filterMap
            dispatch_of) ∧
    (⟨[svn_status_inv "top"], [], ["* run_svn status: top"],
      [("top", "run_svn")]⟩ : PState).dispatches =
      st0.dispatches ++
        ([⟨"top", [".svn"], []⟩] : List WalkEntry).filterMap dispatch_of ∧
    (∃ e', e' ∈ os_walk_from "top" (DirTree.mk "top" [.mk ".svn" [] []] []) ∧
      e'.path = (⟨"top", [".svn"], []⟩ : WalkEntry).path ++ "/" ++ ".svn") := by
  refine ⟨?_, ?_, ?_, ?_⟩
  · have h := claim_c4_single_dispatch_registry_order.2.1 ⟨"p", [".hg", ".git"], []⟩
    rw [h]
    decide
  · exact claim_c4_single_dispatch_registry_order.2.2.1 "status"
      [⟨"top", [".svn"], []⟩] env_ok st0
  · exact claim_c4_single_dispatch_registry_order.2.2.2.1 "status"
      [⟨"top", [".svn"], []⟩] env_ok st0 []
      ⟨[svn_status_inv "top"], [], ["* run_svn status: top"],
       [("top", "run_svn")]⟩ (by rfl)
  · exact claim_c4_single_dispatch_registry_order.2.2.2.2
      (DirTree.mk "top" [.mk ".svn" [] []] []) "top" ⟨"top", [".svn"], []⟩
      (by rw [os_walk_from]; exact List.mem_cons_self _ _) ".svn" (by decide)

/-- C5 counterexample: during `vcall update` in a Mercurial directory, the
direct `hg pull` invocation (made outside `try_prog`) exits with status 1:
the run's history shows the pull exactly once (it is never retried) and the
retry diagnostic is never printed, so the claim — that every external
invocation exiting nonzero is diagnosed and retried exactly once — fails at
this concrete input. -/
theorem claim_c5_counterexample_hg_pull_not_retried :
    env_c3.proc [] = .exit 1 ∧
    ((walk_entries "update" [⟨"d", [".hg"], []⟩]) env_c3 st0).2.history =
      [hg_pull_inv "d", hg_update_inv "d"] ∧
    ((walk_entries "update" [⟨"d", [".hg"], []⟩]) env_c3 st0).1 = .ok [] ∧
    returncode_diag "hg" "d" ∉
      ((walk_entries "update" [⟨"d", [".hg"], []⟩]) env_c3 st0).2.stderr := by
  refine ⟨rfl, rfl, rfl, by decide⟩

/-- C5 (amended): for every invocation made through the command runner's
`try_prog` whose first attempt exits with a nonzero status, the diagnostic
naming program and directory is printed to the error stream and the
invocation is retried exactly once with the same positional and keyword
arguments (as a plain uncaptured call); when the retry also exits nonzero,
the resulting `ReturncodeError` escapes the runner, is caught by the tree
walker, and the walk continues with the next directory. -/
theorem claim_c5_retry_once_then_walker_continues :
    (∀ (p f d : String) (a0 : Arg) (rest : List Arg)
        (k : List (String × String)) (env : Env) (s : PState) (c c' : Int),
      get_config_args env p a0.format d = .ok none →
      env.proc s.history = .exit c →
      env.proc (s.history ++ [⟨p, f, a0 :: rest, k⟩]) = .exit c' →
      try_prog p f d (a0 :: rest) k env s =
        (.error (.returncode c'),
         { s with
           history := s.history ++
             [⟨p, f, a0 :: rest, k⟩, ⟨p, "call", a0 :: rest, k⟩],
           stderr := s.stderr ++ [returncode_diag p d] })) ∧
    (∀ (cmd : String) (e : WalkEntry) (rest : List WalkEntry) (env : Env)
        (s : PState) (r : Runner) (c : Int) (s2 : PState),
      RUNNERS.find? (fun r => e.childDirnames.contains r.sig) = some r →
      r.run cmd e.path env (dispatch_state s e r cmd) =
        (.error (.returncode c), s2) →
      walk_entries cmd (e :: rest) env s = walk_entries cmd rest env s2) :=
  ⟨try_prog_retry_fail, walk_entries_continue⟩

/-- C5 witness: a Subversion status whose first attempt exits 2 and whose
retry exits 3; the walker swallows the retry failure and the walk continues
(here: finishes with no further entries). -/
theorem claim_c5_witness :
    try_prog "svn" "getoutput" "top"
        [Arg.str "status", Arg.str "-u", Arg.str "top"] [] env_c5 st0 =
      (.error (.returncode 3),
       ⟨[svn_status_inv "top",
         ⟨"svn", "call", [Arg.str "status", Arg.str "-u", Arg.str "top"], []⟩],
        [], [returncode_diag "svn" "top"], []⟩) ∧
    walk_entries "status" [⟨"top", [".svn"], []⟩] env_c5 st0 =
      walk_entries "status" [] env_c5
        ⟨[svn_status_inv "top",
          ⟨"svn", "call", [Arg.str "status", Arg.str "-u", Arg.str "top"], []⟩],
         [], ["* run_svn status: top", returncode_diag "svn" "top"],
         [("top", "run_svn")]⟩ := by
  refine ⟨?_, ?_⟩
  · exact claim_c5_retry_once_then_walker_continues.1 "svn" "getoutput" "top"
      (Arg.str "status") [Arg.str "-u", Arg.str "top"] [] env_c5 st0 2 3
      (by rfl) (by rfl) (by rfl)
  · exact claim_c5_retry_once_then_walker_continues.2 "status"
      ⟨"top", [".svn"], []⟩ [] env_c5 st0 ⟨".svn", "run_svn", run_svn⟩ 3
      ⟨[svn_status_inv "top",
        ⟨"svn", "call", [Arg.str "status", Arg.str "-u", Arg.str "top"], []⟩],
       [], ["* run_svn status: top", returncode_diag "svn" "top"],
       [("top", "run_svn")]⟩ (by rfl) (by rfl)

/-- C6 counterexample: a launch failure of Mercurial's direct `pull`
invocation (made outside `try_prog`) propagates fatally, but no diagnostic at
all is printed — the claim's "a diagnostic is printed" part fails at this
concrete input (the error stream stays empty). -/
theorem claim_c6_counterexample_hg_pull_launch_failure_silent :
    (run_hg "update" "d") env_c6 st0 =
      (.error .osError, ⟨[hg_pull_inv "d"], [], [], []⟩) := rfl

/-- C6 (amended): for every invocation made through `try_prog` whose process
cannot be started, the `OSError` diagnostic naming program and directory is
printed and the exception is re-raised without any retry (exactly one
invocation is recorded); the tree walker does not catch it, so it aborts the
walk, and the session loop over roots propagates it as well — the whole run
stops. -/
theorem claim_c6_launch_failure_propagates_fatally :
    (∀ (p f d : String) (a0 : Arg) (rest : List Arg)
        (k : List (String × String)) (env : Env) (s : PState),
      get_config_args env p a0.format d = .ok none →
      env.proc s.history = .launchFailure →
      try_prog p f d (a0 :: rest) k env s =
        (.error .osError,
         { s with
           history := s.history ++ [⟨p, f, a0 :: rest, k⟩],
           stderr := s.stderr ++ [oserror_diag p d] })) ∧
    (∀ (cmd : String) (e : WalkEntry) (rest : List WalkEntry) (env : Env)
        (s : PState) (r : Runner) (s2 : PState),
      RUNNERS.find? (fun r => e.childDirnames.contains r.sig) = some r →
      r.run cmd e.path env (dispatch_state s e r cmd) = (.error .osError, s2) →
      walk_entries cmd (e :: rest) env s = (.error .osError, s2)) ∧
    (∀ (cmd d : String) (ds : List String) (env : Env) (s : PState)
        (s1 : PState),
      walk_dirname cmd d env s = (.error .osError, s1) →
      vcall_roots cmd (d :: ds) env s = (.error .osError, s1)) := by
  refine ⟨try_prog_oserror, ?_, ?_⟩
  · intro cmd e rest env s r s2 hfind hrun
    exact walk_entries_fatal cmd e rest env s r .osError s2 hfind
      (by intro c h; cases h) hrun
  · intro cmd d ds env s s1 h
    exact vcall_roots_fatal cmd d ds env s .osError s1 h

/-- C6 witness: under an environment where no program can start, a Subversion
status prints the diagnostic and aborts: the walker and the session loop both
propagate the `OSError`. -/
theorem claim_c6_witness :
    try_prog "svn" "getoutput" "top"
        [Arg.str "status", Arg.str "-u", Arg.str "top"] [] env_c6 st0 =
      (.error .osError,
       ⟨[svn_status_inv "top"], [], [oserror_diag "svn" "top"], []⟩) ∧
    walk_entries "status" [⟨"top", [".svn"], []⟩, ⟨"top/.svn", [], []⟩]
        env_c6 st0 =
      (.error .osError,
       ⟨[svn_status_inv "top"], [],
        ["* run_svn status: top", oserror_diag "svn" "top"],
        [("top", "run_svn")]⟩) ∧
    vcall_roots "status" ["top"] env_c6 st0 =
      (.error .osError,
       ⟨[svn_status_inv "top"], [],
        ["* run_svn status: top", oserror_diag "svn" "top"],
        [("top", "run_svn")]⟩) := by
  refine ⟨?_, ?_, ?_⟩
  · exact claim_c6_launch_failure_propagates_fatally.1 "svn" "getoutput" "top"
      (Arg.str "status") [Arg.str "-u", Arg.str "top"] [] env_c6 st0
      (by rfl) (by rfl)
  · exact claim_c6_launch_failure_propagates_fatally.2.1 "status"
      ⟨"top", [".svn"], []⟩ [⟨"top/.svn", [], []⟩] env_c6 st0
      ⟨".svn", "run_svn", run_svn⟩
      ⟨[svn_status_inv "top"], [],
       ["* run_svn status: top", oserror_diag "svn" "top"],
       [("top", "run_svn")]⟩ (by rfl) (by rfl)
  · exact claim_c6_launch_failure_propagates_fatally.2.2 "status" "top" []
      env_c6 st0
      ⟨[svn_status_inv "top"], [],
       ["* run_svn status: top", oserror_diag "svn" "top"],
       [("top", "run_svn")]⟩ (by rfl)

/-- C7 counterexample: a `.vcallrc` that cannot be parsed raises a
`ParsingError` that nothing catches — the walk over a Subversion directory
aborts because of the configuration file, refuting "the run never fails
because of the configuration file". -/
theorem claim_c7_counterexample_malformed_rc_fatal :
    walk_dirname "status" "top" env_c7 st0 =
      (.error .parsingError,
       ⟨[], [], ["* run_svn status: top"], [("top", "run_svn")]⟩) := rfl

/-- C7 (amended): a missing or unreadable `.vcallrc`, or a parsed one whose
selected section or key is absent, is treated as "no override" and never
fails; but a `.vcallrc` that cannot be parsed raises a `ParsingError` that is
not caught by `get_config_args` (which catches only `NoSectionError` and
`NoOptionError`) nor by the tree walker (which catches only
`ReturncodeError`), so it aborts the whole run. -/
theorem claim_c7_config_errors_amended :
    (∀ (env : Env) (p sub d : String), env.rc d = .absent →
      get_config_args env p sub d = .ok none) ∧
    (∀ (env : Env) (p sub d : String), env.rc d = .unreadable →
      get_config_args env p sub d = .ok none) ∧
    (∀ (env : Env) (p sub d : String)
        (secs : List (String × List (String × String))),
      env.rc d = .parsed secs →
      secs.lookup (if env.stdinIsTty then "interactive" else "noninteractive")
        = none →
      get_config_args env p sub d = .ok none) ∧
    (∀ (env : Env) (p sub d : String)
        (secs : List (String × List (String × String)))
        (opts : List (String × String)),
      env.rc d = .parsed secs →
      secs.lookup (if env.stdinIsTty then "interactive" else "noninteractive")
        = some opts →
      opts.lookup (p ++ "." ++ sub) = none →
      get_config_args env p sub d = .ok none) ∧
    (∀ (env : Env) (p sub d : String), env.rc d = .malformed →
      get_config_args env p sub d = .error .parsingError) ∧
    (∀ (cmd : String) (e : WalkEntry) (rest : List WalkEntry) (env : Env)
        (s : PState) (r : Runner) (s2 : PState),
      RUNNERS.find? (fun r => e.childDirnames.contains r.sig) = some r →
      r.run cmd e.path env (dispatch_state s e r cmd) =
        (.error .parsingError, s2) →
      walk_entries cmd (e :: rest) env s = (.error .parsingError, s2)) := by
  refine ⟨get_config_args_absent, get_config_args_unreadable,
    get_config_args_no_section, get_config_args_no_option,
    get_config_args_malformed, ?_⟩
  intro cmd e rest env s r s2 hfind hrun
  exact walk_entries_fatal cmd e rest env s r .parsingError s2 hfind
    (by intro c h; cases h) hrun

/-- C7 witness: the five configuration outcomes and the fatal propagation,
each at a concrete input. -/
theorem claim_c7_witness :
    get_config_args env_ok "git" "status" "." = .ok none ∧
    get_config_args { env_ok with rc := fun _ => .unreadable }
      "git" "status" "." = .ok none ∧
    get_config_args { env_c2 with stdinIsTty := false }
      "git" "status" "repo" = .ok none ∧
    get_config_args env_c2 "git" "-C" "repo" = .ok none ∧
    get_config_args env_c7 "svn" "status" "top" = .error .parsingError ∧
    walk_entries "status" [⟨"top", [".svn"], []⟩, ⟨"top/.svn", [], []⟩]
        env_c7 st0 =
      (.error .parsingError,
       ⟨[], [], ["* run_svn status: top"], [("top", "run_svn")]⟩) := by
  refine ⟨?_, ?_, ?_, ?_, ?_, ?_⟩
  · exact claim_c7_config_errors_amended.1 env_ok "git" "status" "." (by rfl)
  · exact claim_c7_config_errors_amended.2.1
      { env_ok with rc := fun _ => .unreadable } "git" "status" "." (by rfl)
  · exact claim_c7_config_errors_amended.2.2.1
      { env_c2 with stdinIsTty := false } "git" "status" "repo"
      [("interactive", [("git.status", "status --short")])] (by rfl) (by rfl)
  · exact claim_c7_config_errors_amended.2.2.2.1 env_c2 "git" "-C" "repo"
      [("interactive", [("git.status", "status --short")])]
      [("git.status", "status --short")] (by rfl) (by rfl) (by rfl)
  · exact claim_c7_config_errors_amended.2.2.2.2.1 env_c7 "svn" "status" "top"
      (by rfl)
  · exact claim_c7_config_errors_amended.2.2.2.2.2 "status"
      ⟨"top", [".svn"], []⟩ [⟨"top/.svn", [], []⟩] env_c7 st0
      ⟨".svn", "run_svn", run_svn⟩
      ⟨[], [], ["* run_svn status: top"], [("top", "run_svn")]⟩
      (by rfl) (by rfl)

/-- Each `progress_loop` outcome is either `none` (every progresser failed to
start) or the unchanged iterable. -/
theorem progress_loop_none_or_id (ps : List Progresser) (it : List String) :
    progress_loop ps it = none ∨ progress_loop ps it = some it := by
  induction ps with
  | nil => exact Or.inl rfl
  | cons p rest ih =>
    by_cases h : p.startFails = true <;>
      simp [progress_loop, h, ih]

/-- C8: the progress indicator never alters the items — it either returns the
iterable unchanged or returns `None` — and it is a pure pass-through when no
progresser is configured (`PROGRESSERS` is `None` or empty) or when a
progresser starts; but when every configured progresser fails to start, the
loop is exhausted and `progress` returns `None` instead of the iterable, so
the subsequent iteration raises a `TypeError` and the whole run aborts
(divergence at the failing input, last two conjuncts). -/
theorem claim_c8_progress_pass_through_or_none :
    (∀ it : List String, progress none it = some it) ∧
    (∀ it : List String, progress (some []) it = some it) ∧
    (∀ (ps : Option (List Progresser)) (it : List String),
      progress ps it = none ∨ progress ps it = some it) ∧
    (∀ it : List String, progress (some [⟨true⟩]) it = none) ∧
    vcall_main "status" ["."] env_c8 st0 = (.error .typeError, st0) ∧
    (walk_dirname "status" ".") { env_c8 with stdoutIsTty := true } st0 =
      (.error .typeError, st0) := by
  refine ⟨fun it => rfl, fun it => rfl, ?_, fun it => rfl, rfl, rfl⟩
  intro ps it
  match ps with
  | none => exact Or.inr rfl
  | some [] => exact Or.inr rfl
  | some (p :: rest) => exact progress_loop_none_or_id (p :: rest) it

/-- C9: the Upgrade command for the CVS and Mercurial backends returns
immediately — no invocation, no output, result `None` (not reportable) —
while any command other than Status for the Git backend raises
`NotImplementedError`, which the tree walker does not catch, so it is a hard
failure rather than a clean result. -/
theorem claim_c9_unsupported_commands :
    (∀ (d : String) (env : Env) (s : PState),
      (run_cvs "upgrade" d) env s = (.ok none, s)) ∧
    (∀ (d : String) (env : Env) (s : PState),
      (run_hg "upgrade" d) env s = (.ok none, s)) ∧
    (∀ (cmd d : String) (env : Env) (s : PState), cmd ≠ "status" →
      (run_git cmd d) env s = (.error .notImplemented, s)) ∧
    (∀ (cmd : String) (e : WalkEntry) (rest : List WalkEntry) (env : Env)
        (s : PState) (r : Runner) (s2 : PState),
      RUNNERS.find? (fun r => e.childDirnames.contains r.sig) = some r →
      r.run cmd e.path env (dispatch_state s e r cmd) =
        (.error .notImplemented, s2) →
      walk_entries cmd (e :: rest) env s = (.error .notImplemented, s2)) := by
  refine ⟨fun d env s => rfl, fun d env s => rfl, ?_, ?_⟩
  · intro cmd d env s h
    simp only [run_git, if_neg h]
  · intro cmd e rest env s r s2 hfind hrun
    exact walk_entries_fatal cmd e rest env s r .notImplemented s2 hfind
      (by intro c h; cases h) hrun

/-- C9 witness: the silent skips and the hard error, at concrete inputs;
the `NotImplementedError` aborts the walk. -/
theorem claim_c9_witness :
    (run_cvs "upgrade" "d") env_ok st0 = (.ok none, st0) ∧
    (run_hg "upgrade" "d") env_ok st0 = (.ok none, st0) ∧
    (run_git "update" "d") env_ok st0 = (.error .notImplemented, st0) ∧
    walk_entries "update" [⟨"top", [".git"], []⟩] env_ok st0 =
      (.error .notImplemented,
       ⟨[], [], ["* run_git update: top"], [("top", "run_git")]⟩) := by
  refine ⟨claim_c9_unsupported_commands.1 "d" env_ok st0,
    claim_c9_unsupported_commands.2.1 "d" env_ok st0,
    claim_c9_unsupported_commands.2.2.1 "update" "d" env_ok st0 (by decide),
    claim_c9_unsupported_commands.2.2.2 "update" ⟨"top", [".git"], []⟩ []
      env_ok st0 ⟨".git", "run_git", run_git⟩
      ⟨[], [], ["* run_git update: top"], [("top", "run_git")]⟩
      (by rfl) (by rfl)⟩

/-- C10: for the dual-stream (`getoutput_error`) invocations of the Git and
CVS Status paths, a first attempt that exits nonzero followed by a successful
retry makes `try_prog` return `None`; unpacking `None` into the
`(output, error)` pair raises a `TypeError`, which the tree walker does not
catch (nor does the session loop), so a recovered transient failure aborts
the whole run. -/
theorem claim_c10_recovered_retry_aborts_run :
    (∀ (env : Env) (d : String) (s : PState) (c : Int) (out err : String),
      env.rc d = .absent →
      env.proc s.history = .exit c →
      env.proc (s.history ++ [git_remote_update_inv d]) = .ok out err →
      (run_git "status" d) env s =
        (.error .typeError,
         { s with
           history := s.history ++
             [git_remote_update_inv d,
              ⟨"git", "call",
               [Arg.str "-C", Arg.str d, Arg.str "remote", Arg.str "update"],
               []⟩],
           stderr := s.stderr ++ [returncode_diag "git" d] })) ∧
    (∀ (env : Env) (d : String) (s : PState) (c : Int) (out err : String),
      env.rc d = .absent →
      env.proc s.history = .exit c →
      env.proc (s.history ++ [cvs_status_inv d]) = .ok out err →
      (run_cvs "status" d) env s =
        (.error .typeError,
         { s with
           history := s.history ++
             [cvs_status_inv d,
              ⟨"cvs", "call",
               [Arg.cwd d, Arg.str "update", Arg.str "-dP", Arg.str "."],
               [("q", "True"), ("n", "True")]⟩],
           stderr := s.stderr ++ [returncode_diag "cvs" d] })) ∧
    (∀ (cmd : String) (e : WalkEntry) (rest : List WalkEntry) (env : Env)
        (s : PState) (r : Runner) (s2 : PState),
      RUNNERS.find? (fun r => e.childDirnames.contains r.sig) = some r →
      r.run cmd e.path env (dispatch_state s e r cmd) =
        (.error .typeError, s2) →
      walk_entries cmd (e :: rest) env s = (.error .typeError, s2)) ∧
    (∀ (cmd d : String) (ds : List String) (env : Env) (s : PState)
        (s1 : PState),
      walk_dirname cmd d env s = (.error .typeError, s1) →
      vcall_roots cmd (d :: ds) env s = (.error .typeError, s1)) := by
  refine ⟨?_, ?_, ?_, ?_⟩
  · intro env d s c out err hrc h1 h2
    have hconf := get_config_args_absent env "git" (Arg.str "-C").format d hrc
    have htp := try_prog_retry_ok "git" "getoutput_error" d (Arg.str "-C")
      [Arg.str d, Arg.str "remote", Arg.str "update"] [] env s c out err
      hconf h1 h2
    simp [run_git, htp, unpack_output_error, git_remote_update_inv]
  · intro env d s c out err hrc h1 h2
    have hconf := get_config_args_absent env "cvs" (Arg.cwd d).format d hrc
    have htp := try_prog_retry_ok "cvs" "getoutput_error" d (Arg.cwd d)
      [Arg.str "update", Arg.str "-dP", Arg.str "."]
      [("q", "True"), ("n", "True")] env s c out err hconf h1 h2
    simp [run_cvs, make_args, htp, unpack_output_error, cvs_status_inv]
  · intro cmd e rest env s r s2 hfind hrun
    exact walk_entries_fatal cmd e rest env s r .typeError s2 hfind
      (by intro c h; cases h) hrun
  · intro cmd d ds env s s1 h
    exact vcall_roots_fatal cmd d ds env s .typeError s1 h

/-- C10 witness: a Git status whose remote-update attempt exits 2 and whose
retry succeeds — the run aborts with a `TypeError` at walker and session
level. -/
theorem claim_c10_witness :
    (run_git "status" "d") env_c10 st0 =
      (.error .typeError,
       ⟨[git_remote_update_inv "d",
         ⟨"git", "call",
          [Arg.str "-C", Arg.str "d", Arg.str "remote", Arg.str "update"], []⟩],
        [], [returncode_diag "git" "d"], []⟩) ∧
    (run_cvs "status" "d") env_c10 st0 =
      (.error .typeError,
       ⟨[cvs_status_inv "d",
         ⟨"cvs", "call",
          [Arg.cwd "d", Arg.str "update", Arg.str "-dP", Arg.str "."],
          [("q", "True"), ("n", "True")]⟩],
        [], [returncode_diag "cvs" "d"], []⟩) ∧
    walk_entries "status" [⟨"d", [".git"], []⟩] env_c10 st0 =
      (.error .typeError,
       ⟨[git_remote_update_inv "d",
         ⟨"git", "call",
          [Arg.str "-C", Arg.str "d", Arg.str "remote", Arg.str "update"], []⟩],
        [], ["* run_git status: d", returncode_diag "git" "d"],
        [("d", "run_git")]⟩) ∧
    vcall_roots "status" ["d"] env_c10 st0 =
      (.error .typeError,
       ⟨[git_remote_update_inv "d",
         ⟨"git", "call",
          [Arg.str "-C", Arg.str "d", Arg.str "remote", Arg.str "update"], []⟩],
        [], ["* run_git status: d", returncode_diag "git" "d"],
        [("d", "run_git")]⟩) := by
  refine ⟨?_, ?_, ?_, ?_⟩
  · exact claim_c10_recovered_retry_aborts_run.1 env_c10 "d" st0 2 "" ""
      (by rfl) (by rfl) (by rfl)
  · exact claim_c10_recovered_retry_aborts_run.2.1 env_c10 "d" st0 2 "" ""
      (by rfl) (by rfl) (by rfl)
  · exact claim_c10_recovered_retry_aborts_run.2.2.1 "status"
      ⟨"d", [".git"], []⟩ [] env_c10 st0 ⟨".git", "run_git", run_git⟩
      ⟨[git_remote_update_inv "d",
        ⟨"git", "call",
         [Arg.str "-C", Arg.str "d", Arg.str "remote", Arg.str "update"], []⟩],
       [], ["* run_git status: d", returncode_diag "git" "d"],
       [("d", "run_git")]⟩ (by rfl) (by rfl)
  · exact claim_c10_recovered_retry_aborts_run.2.2.2 "status" "d" [] env_c10
      st0
      ⟨[git_remote_update_inv "d",
        ⟨"git", "call",
         [Arg.str "-C", Arg.str "d", Arg.str "remote", Arg.str "update"], []⟩],
       [], ["* run_git status: d", returncode_diag "git" "d"],
       [("d", "run_git")]⟩ (by rfl)

end VCall
